import Mathlib

/-!
Verification of the GCEWindowsAgent reconciliation control loop
(GCEWindowsAgent/main.go) against its design specification.

The embedding models the per-cycle behaviour of `runUpdate`, the
fetch-retry watch loop in `run`, the entry dispatch in `main`, and the
helper `containsString`.  Metadata snapshots and the parsed override
configuration are abstract types `M` and `C`: the loop is generic over
their contents.  Side effects (log writes, sleeps, dispatches) are
recorded as explicit event traces.
-/

namespace GCEAgent

/-- Per-cycle view of the Go `manager` interface: the values that the
three methods `disabled()`, `diff()` and `set()` return during one
cycle.  `set` returns `Except.error e` when the Go method returns a
non-nil error whose message is `e`. -/
structure Manager where
  disabled : Bool
  diff : Bool
  set : Except String Unit
deriving Repr

/-- Observable per-manager events inside one cycle of `runUpdate`:
which of the three methods were invoked, and any error log emitted. -/
inductive MgrEvent
  | disabledCall
  | diffCall
  | setCall
  | logSetError (e : String)
deriving Repr, DecidableEq

/-- The body of the goroutine `runUpdate` spawns for one manager:

    if mgr.disabled() || !mgr.diff() { return }
    if err := mgr.set(); err != nil { logger.Error(err) }

`disabled()` is always called; Go's `||` short-circuits, so `diff()` is
called only when `disabled()` returned false, and `set()` only when
additionally `diff()` returned true. -/
def dispatchMgr (m : Manager) : List MgrEvent :=
  if m.disabled then
    [.disabledCall]
  else if !m.diff then
    [.disabledCall, .diffCall]
  else
    match m.set with
    | .error e => [.disabledCall, .diffCall, .setCall, .logSetError e]
    | .ok _ => [.disabledCall, .diffCall, .setCall]

/-- A configuration domain, as registered in `runUpdate`: the manager it
constructs each cycle is determined by the old snapshot, the new
snapshot and the parsed override config (the constructors `&addresses{...}`,
`&accounts{...}`, `&diagnostics{...}`, `newWsfcManager(...)`). -/
structure DomainSpec (M C : Type) where
  disabled : M → M → C → Bool
  diff : M → M → C → Bool
  set : M → M → C → Except String Unit

/-- Construct a domain's per-cycle manager from exactly the triple
{previous snapshot, current snapshot, override config}. -/
def DomainSpec.instantiate {M C : Type} (d : DomainSpec M C)
    (oldMetadata newMetadata : M) (cfg : C) : Manager :=
  ⟨d.disabled oldMetadata newMetadata cfg,
   d.diff oldMetadata newMetadata cfg,
   d.set oldMetadata newMetadata cfg⟩

/-- Outcome of `parseConfig(configPath)` as observed by `runUpdate`:
the file may be absent (`os.IsNotExist(err)`), unreadable for another
reason, readable but unparsable by `ini.InsensitiveLoad`, or parsed
successfully into a config value. -/
inductive ConfigFileResult (C : Type)
  | notExist
  | readError (e : String)
  | parseError (e : String)
  | parsed (cfg : C)
deriving Repr, DecidableEq

/-- The config-loading prelude of `runUpdate`: a non-nil error that is
not `os.IsNotExist` is logged (returned as `some e`); whenever
`parseConfig` produced no config, the empty config is substituted. -/
def loadConfig {C : Type} (emptyCfg : C) :
    ConfigFileResult C → Option String × C
  | .notExist => (none, emptyCfg)
  | .readError e => (some e, emptyCfg)
  | .parseError e => (some e, emptyCfg)
  | .parsed cfg => (none, cfg)

/-- `runUpdate(newMetadata, oldMetadata)`: load the override config,
construct every registered domain's manager from {old, new, cfg}, and
dispatch each of them (the goroutine fan-out with `wg.Wait()`; the trace
list has one entry per registered domain).  Returns the config-error
log, if any, together with the per-domain event traces. -/
def runUpdate {M C : Type} (domains : List (DomainSpec M C)) (emptyCfg : C)
    (fileRes : ConfigFileResult C) (oldMetadata newMetadata : M) :
    Option String × List (List MgrEvent) :=
  let cfg := (loadConfig emptyCfg fileRes).2
  ((loadConfig emptyCfg fileRes).1,
   domains.map fun d => dispatchMgr (d.instantiate oldMetadata newMetadata cfg))

/-- `containsString(s, ss)` from main.go: linear scan with `==`. -/
def containsString (s : String) : List String → Bool
  | [] => false
  | a :: ss => if a == s then true else containsString s ss

/-- Classification of an error returned by `watchMetadata`, matching the
type assertions in `run`: a `*url.Error` wrapping a `*net.DNSError`, a
`*url.Error` wrapping a `*net.OpError`, a `*url.Error` wrapping anything
else, or an error that is not a `*url.Error` at all.  The payload is the
error message. -/
inductive FetchError
  | urlDNS (e : String)
  | urlOp (e : String)
  | urlOther (e : String)
  | other (e : String)
deriving Repr, DecidableEq

/-- The literal hint logged for a DNS-resolution failure. -/
def dnsHint : String :=
  "DNS error when requesting metadata, check DNS settings and ensure metadata.internal.google is setup in your hosts file."

/-- The literal hint logged for a network-unreachable failure. -/
def netHint : String :=
  "Network error when requesting metadata, make sure your instance has an active network and can reach the metadata server."

/-- Observable events of the watch loop in `run`. -/
inductive Event (M : Type)
  | logHint (s : String)
  | logFetchError (e : FetchError)
  | logConfigError (e : String)
  | sleepSeconds (n : Nat)
  | checkCancel
  | dispatched (oldMetadata newMetadata : M) (traces : List (List MgrEvent))
deriving Repr

/-- Mutable state of the watch-loop goroutine in `run`: the previous
snapshot `oldMetadata` and the consecutive-error counter `webError`. -/
structure LoopState (M : Type) where
  oldMetadata : M
  webError : Nat
deriving Repr

/-- The external inputs one loop iteration consumes: the result of
`watchMetadata(ctx)`, whether `ctx.Done()` is ready at the `select`
after a successful fetch, and what `parseConfig` sees this cycle. -/
structure LoopInput (M C : Type) where
  fetch : Except FetchError M
  cancelled : Bool
  fileRes : ConfigFileResult C

/-- The log entries the `webError == 1` branch of `run` emits: for a
`*url.Error` wrapping a `*net.DNSError` or `*net.OpError` the matching
hint first, then `logger.Error(err)` in every case. -/
def fetchFailLogs {M : Type} : FetchError → List (Event M)
  | .urlDNS s => [.logHint dnsHint, .logFetchError (.urlDNS s)]
  | .urlOp s => [.logHint netHint, .logFetchError (.urlOp s)]
  | .urlOther s => [.logFetchError (.urlOther s)]
  | .other s => [.logFetchError (.other s)]

/-- One iteration of the `for` loop in `run`.  Returns the successor
state (`none` when the loop `return`s on cancellation) and the events of
the iteration.  On fetch failure: log only when `webError == 1`,
increment `webError`, sleep 5 seconds, `continue` — `oldMetadata` is
untouched.  On success: `select` on `ctx.Done()`; if ready, `return`;
otherwise `runUpdate`, then `oldMetadata = *newMetadata` and
`webError = 0`. -/
def runStep {M C : Type} (domains : List (DomainSpec M C)) (emptyCfg : C)
    (st : LoopState M) (inp : LoopInput M C) :
    Option (LoopState M) × List (Event M) :=
  match inp.fetch with
  | .error e =>
      let logs : List (Event M) := if st.webError == 1 then fetchFailLogs e else []
      (some ⟨st.oldMetadata, st.webError + 1⟩, logs ++ [.sleepSeconds 5])
  | .ok newMetadata =>
      if inp.cancelled then
        (none, [.checkCancel])
      else
        let upd := runUpdate domains emptyCfg inp.fileRes st.oldMetadata newMetadata
        let cfgEvents : List (Event M) :=
          match upd.1 with
          | some e => [.logConfigError e]
          | none => []
        (some ⟨newMetadata, 0⟩,
         .checkCancel :: cfgEvents ++ [.dispatched st.oldMetadata newMetadata upd.2])

/-- Run the watch loop on a finite prefix of its (conceptually infinite)
input stream.  Returns the accumulated events, the state when the inputs
ran out or the loop returned, and whether the loop returned (stopped on
cancellation) — `false` means it is still running, ready for the next
fetch. -/
def runLoop {M C : Type} (domains : List (DomainSpec M C)) (emptyCfg : C) :
    LoopState M → List (LoopInput M C) → List (Event M) × LoopState M × Bool
  | st, [] => ([], st, false)
  | st, inp :: rest =>
      match runStep domains emptyCfg st inp with
      | (none, evs) => (evs, st, true)
      | (some st2, evs) =>
          let r := runLoop domains emptyCfg st2 rest
          (evs ++ r.1, r.2.1, r.2.2)

/-- The goroutine body of `run`: the loop starts from the Go zero value
`var oldMetadata metadataJSON` (here the parameter `zeroMeta`) and
`webError = 0`. -/
def runAgent {M C : Type} (domains : List (DomainSpec M C)) (emptyCfg : C)
    (zeroMeta : M) (inputs : List (LoopInput M C)) :
    List (Event M) × LoopState M × Bool :=
  runLoop domains emptyCfg ⟨zeroMeta, 0⟩ inputs

/-- Outcome of `register` as observed by `main`. -/
inductive RegisterOutcome
  | runForeground
  | serviceVerb (verb : String)
deriving Repr, DecidableEq

/-- The OS-service control verbs. -/
def serviceVerbs : List String := ["install", "start", "stop", "remove"]

/-- Modelled from the spec: the OS-service registration shim `register`
(its source file is not part of this repository snapshot; only its call
site in `main` is).  Per the spec's process entry contract, the
recognized actions are "run directly in the foreground until killed"
(the action string `"run"`, which `main` defaults to) and the service
control verbs install, start, stop, remove; an unrecognized service
action surfaces as an error, which `main` turns into a fatal startup
error. -/
def register (action : String) : Except String RegisterOutcome :=
  if action == "run" then .ok .runForeground
  else if containsString action serviceVerbs then .ok (.serviceVerb action)
  else .error ("unrecognized action: " ++ action)

/-- Final behaviour of the process as decided by `main`. -/
inductive MainOutcome
  | foregroundNoService
  | foregroundRun
  | serviceControl (verb : String)
  | fatalError (e : String)
deriving Repr, DecidableEq

/-- `main` from main.go: take `os.Args[1]` if present, else `"run"`;
`"noservice"` runs `run(ctx)` directly and exits 0; every other action
is passed to `register`, and a non-nil error from `register` is
`logger.Fatal`. -/
def mainGo (args : List String) : MainOutcome :=
  let action := if args.length < 2 then "run" else args.getD 1 ""
  if action == "noservice" then .foregroundNoService
  else
    match register action with
    | .ok .runForeground => .foregroundRun
    | .ok (.serviceVerb v) => .serviceControl v
    | .error e => .fatalError e

/-- A loop input carrying a failed fetch (cancellation and config are
irrelevant on the failure path). -/
def failInput {M C : Type} (e : FetchError) : LoopInput M C :=
  ⟨.error e, false, .notExist⟩

/-- Recognize the `logger.Error(err)` entry for a fetch error. -/
def isFetchErrorLog {M : Type} : Event M → Bool
  | .logFetchError _ => true
  | _ => false

/-- Recognize a human-actionable hint entry. -/
def isHintLog {M : Type} : Event M → Bool
  | .logHint _ => true
  | _ => false

/-- How many hint lines accompany the logged error: one for the DNS and
network-unreachable classes, none otherwise. -/
def hintCount : FetchError → Nat
  | .urlDNS _ => 1
  | .urlOp _ => 1
  | .urlOther _ => 0
  | .other _ => 0

/-- Closed form of the events a streak of `n` consecutive fetch failures
produces when the counter starts at `w`: each failure logs only when the
counter reads 1 at that moment, then sleeps 5 seconds. -/
def streakEvents {M : Type} (w n : Nat) (e : FetchError) : List (Event M) :=
  match n with
  | 0 => []
  | k + 1 =>
      ((if w == 1 then fetchFailLogs e else []) ++ [.sleepSeconds 5])
        ++ streakEvents (w + 1) k e

/-! ## Theorems -/

/-- Claim C10: `containsString(s, ss)` returns true iff some element of
`ss` equals `s`. -/
theorem containsString_iff_mem (s : String) (ss : List String) :
    containsString s ss = true ↔ s ∈ ss := by
  induction ss with
  | nil => simp [containsString]
  | cons a t ih =>
      by_cases h : a = s
      · subst h; simp [containsString]
      · have hb : (a == s) = false := by
          simpa using h
        simp [containsString, hb, ih, List.mem_cons, h, Ne.symm h]

/-- Claim C1: in every cycle, a manager's `set()` is invoked exactly when
`disabled()` returned false and `diff()` returned true for that cycle,
and when `disabled()` returns true, neither `diff()` nor `set()` is
invoked for that manager; the cycle dispatches exactly the registered
domains' managers instantiated at this cycle's snapshots and config. -/
theorem set_only_when_enabled_and_diff {M C : Type}
    (domains : List (DomainSpec M C)) (emptyCfg : C)
    (fileRes : ConfigFileResult C) (oldM newM : M) :
    ((runUpdate domains emptyCfg fileRes oldM newM).2 =
      domains.map fun d =>
        dispatchMgr (d.instantiate oldM newM (loadConfig emptyCfg fileRes).2))
    ∧ (∀ m : Manager,
        (MgrEvent.setCall ∈ dispatchMgr m ↔ m.disabled = false ∧ m.diff = true)
        ∧ (m.disabled = true →
            MgrEvent.diffCall ∉ dispatchMgr m ∧ MgrEvent.setCall ∉ dispatchMgr m)) := by
  refine ⟨rfl, fun m => ⟨?_, ?_⟩⟩
  · cases hd : m.disabled <;> cases hf : m.diff <;> cases hs : m.set <;>
      simp [dispatchMgr, hd, hf, hs]
  · intro hdis
    simp [dispatchMgr, hdis]

/-- For the claim C1 theorem, a concrete cycle: one enabled, changed
domain whose manager's trace contains `setCall`. -/
theorem set_only_when_enabled_and_diff_witness :
    MgrEvent.setCall ∈ dispatchMgr ⟨false, true, .ok ()⟩ :=
  ((set_only_when_enabled_and_diff (M := Nat) (C := Nat) [] 0 .notExist 0 0).2
    ⟨false, true, .ok ()⟩).1.mpr ⟨rfl, rfl⟩

/-- Claim C6: loading the override config never aborts the cycle: a
missing file is silent and yields the empty config, any other read or
parse error is logged and yields the empty config, a parsed file yields
its config, and in every case all registered domains are dispatched. -/
theorem configErrors_never_abort_cycle {M C : Type}
    (domains : List (DomainSpec M C)) (emptyCfg : C) (oldM newM : M) :
    (runUpdate domains emptyCfg .notExist oldM newM =
      (none, domains.map fun d => dispatchMgr (d.instantiate oldM newM emptyCfg)))
    ∧ (∀ e, runUpdate domains emptyCfg (.readError e) oldM newM =
      (some e, domains.map fun d => dispatchMgr (d.instantiate oldM newM emptyCfg)))
    ∧ (∀ e, runUpdate domains emptyCfg (.parseError e) oldM newM =
      (some e, domains.map fun d => dispatchMgr (d.instantiate oldM newM emptyCfg)))
    ∧ (∀ cfg, runUpdate domains emptyCfg (.parsed cfg) oldM newM =
      (none, domains.map fun d => dispatchMgr (d.instantiate oldM newM cfg)))
    ∧ (∀ fileRes : ConfigFileResult C,
        ((runUpdate domains emptyCfg fileRes oldM newM).2).length = domains.length) := by
  refine ⟨rfl, fun e => rfl, fun e => rfl, fun cfg => rfl, fun fileRes => ?_⟩
  simp [runUpdate]

/-- Claim C7: each cycle's domain instances are constructed fresh from
exactly {previous snapshot, current snapshot, override config}, and the
cycle's outcome is independent of any other loop state (`webError`), so
no state is carried across cycles by domain objects. -/
theorem domain_instances_fresh_per_cycle {M C : Type}
    (domains : List (DomainSpec M C)) (emptyCfg : C)
    (fileRes : ConfigFileResult C) (oldM newM : M) :
    ((runUpdate domains emptyCfg fileRes oldM newM).2 =
      domains.map fun d =>
        dispatchMgr (d.instantiate oldM newM (loadConfig emptyCfg fileRes).2))
    ∧ (∀ (d : DomainSpec M C) (cfg : C),
        d.instantiate oldM newM cfg =
          ⟨d.disabled oldM newM cfg, d.diff oldM newM cfg, d.set oldM newM cfg⟩)
    ∧ (∀ (w w2 : Nat) (c : Bool),
        runStep domains emptyCfg ⟨oldM, w⟩ ⟨.ok newM, c, fileRes⟩ =
          runStep domains emptyCfg ⟨oldM, w2⟩ ⟨.ok newM, c, fileRes⟩) := by
  refine ⟨rfl, fun d cfg => rfl, fun w w2 c => ?_⟩
  cases c <;> rfl

/-- Claim C3: a `set()` error is logged (`logSetError`) and swallowed:
any domain's trace depends only on that domain (so other domains'
dispatch is unaffected by a failure elsewhere in the same cycle), and on
a successful fetch the iteration always completes with the previous
snapshot replaced by the current one, whatever the domains' `set`
results were. -/
theorem setError_logged_and_swallowed {M C : Type}
    (domains : List (DomainSpec M C)) (emptyCfg : C)
    (fileRes : ConfigFileResult C) (newM : M) :
    (∀ (m : Manager) (e : String), m.set = .error e → m.disabled = false →
        m.diff = true →
        dispatchMgr m = [.disabledCall, .diffCall, .setCall, .logSetError e])
    ∧ (∀ (domains2 : List (DomainSpec M C)) (oldM : M) (i : Nat),
        domains[i]? = domains2[i]? →
        ((runUpdate domains emptyCfg fileRes oldM newM).2)[i]? =
          ((runUpdate domains2 emptyCfg fileRes oldM newM).2)[i]?)
    ∧ (∀ st : LoopState M,
        (runStep domains emptyCfg st ⟨.ok newM, false, fileRes⟩).1 =
            some ⟨newM, 0⟩
        ∧ Event.dispatched st.oldMetadata newM
            ((runUpdate domains emptyCfg fileRes st.oldMetadata newM).2)
            ∈ (runStep domains emptyCfg st ⟨.ok newM, false, fileRes⟩).2) := by
  refine ⟨fun m e hs hd hf => ?_, fun domains2 oldM i hi => ?_, fun st => ⟨rfl, ?_⟩⟩
  · simp [dispatchMgr, hd, hf, hs]
  · simp only [runUpdate, List.getElem?_map, hi]
  · cases fileRes <;> simp [runStep, runUpdate, loadConfig]

/-- For the claim C3 theorem, a concrete cycle: a failing manager's
trace, isolation at index 0 between two one-domain registries that agree
there, and completion of the iteration. -/
theorem setError_logged_and_swallowed_witness :
    dispatchMgr ⟨false, true, .error "apply failed"⟩ =
      [.disabledCall, .diffCall, .setCall, .logSetError "apply failed"] :=
  (setError_logged_and_swallowed (M := Nat) (C := Nat) [] 0 .notExist 0).1
    ⟨false, true, .error "apply failed"⟩ "apply failed" rfl rfl rfl

/-- Claim C5: on a fetch failure the iteration returns to the top of the
loop with `oldMetadata` unchanged (no snapshot advance), never
terminates the loop, emits the 5-second sleep after the logging policy,
dispatches nothing, and the loop then proceeds to the next fetch. -/
theorem fetch_failure_frame {M C : Type} (domains : List (DomainSpec M C))
    (emptyCfg : C) (st : LoopState M) (e : FetchError) (c : Bool)
    (fr : ConfigFileResult C) (rest : List (LoopInput M C)) :
    (runStep domains emptyCfg st ⟨.error e, c, fr⟩ =
      (some ⟨st.oldMetadata, st.webError + 1⟩,
        (if st.webError == 1 then fetchFailLogs e else []) ++ [.sleepSeconds 5]))
    ∧ (runLoop domains emptyCfg st (⟨.error e, c, fr⟩ :: rest) =
        (((if st.webError == 1 then fetchFailLogs e else []) ++ [.sleepSeconds 5])
            ++ (runLoop domains emptyCfg ⟨st.oldMetadata, st.webError + 1⟩ rest).1,
         (runLoop domains emptyCfg ⟨st.oldMetadata, st.webError + 1⟩ rest).2))
    ∧ (∀ ev ∈ (runStep domains emptyCfg st ⟨.error e, c, fr⟩).2,
        ∀ (o nM : M) (tr : List (List MgrEvent)), ev ≠ .dispatched o nM tr) := by
  refine ⟨rfl, ?_, fun ev hev o nM tr => ?_⟩
  · simp [runLoop, runStep]
  · simp only [runStep, List.mem_append, List.mem_singleton] at hev
    rcases hev with hev | hev
    · rcases Bool.eq_false_or_eq_true (st.webError == 1) with hw | hw
      · simp only [hw, if_true] at hev
        cases e <;> simp [fetchFailLogs] at hev <;>
          rcases hev with rfl | rfl <;> simp
      · simp [hw] at hev
    · subst hev; simp

/-- Claim C8: after a successful fetch, cancellation is checked before
dispatch (the iteration's first event is the cancel check); if cancelled
the loop stops with no dispatch; if not cancelled the dispatch happens
and the consecutive-error counter of the next iteration is zero; on the
fetch-failure path, cancellation is never checked and the loop never
stops. -/
theorem cancel_checked_only_after_success {M C : Type}
    (domains : List (DomainSpec M C)) (emptyCfg : C) (st : LoopState M)
    (newM : M) (fr : ConfigFileResult C) :
    (runStep domains emptyCfg st ⟨.ok newM, true, fr⟩ = (none, [.checkCancel]))
    ∧ ((runStep domains emptyCfg st ⟨.ok newM, false, fr⟩).1 = some ⟨newM, 0⟩)
    ∧ ((runStep domains emptyCfg st ⟨.ok newM, false, fr⟩).2.head? =
        some .checkCancel)
    ∧ (Event.dispatched st.oldMetadata newM
          ((runUpdate domains emptyCfg fr st.oldMetadata newM).2)
        ∈ (runStep domains emptyCfg st ⟨.ok newM, false, fr⟩).2)
    ∧ (∀ (e : FetchError) (c : Bool),
        Event.checkCancel ∉ (runStep domains emptyCfg st ⟨.error e, c, fr⟩).2
        ∧ (runStep domains emptyCfg st ⟨.error e, c, fr⟩).1 ≠ none) := by
  refine ⟨rfl, rfl, rfl, ?_, fun e c => ⟨?_, by simp [runStep]⟩⟩
  · cases fr <;> simp [runStep, runUpdate, loadConfig]
  · intro hmem
    simp only [runStep, List.mem_append, List.mem_singleton] at hmem
    rcases hmem with hmem | hmem
    · rcases Bool.eq_false_or_eq_true (st.webError == 1) with hw | hw
      · simp only [hw, if_true] at hmem
        cases e <;> simp [fetchFailLogs] at hmem
      · simp [hw] at hmem
    · exact Event.noConfusion hmem

/-- Claim C9: the very first cycle's previous snapshot is the zero-valued
snapshot: a run whose first fetch succeeds dispatches with the zero
snapshot as "old", and every domain that is enabled and reports a diff
against that zero snapshot has `setCall` in its trace on that first
cycle. -/
theorem first_cycle_previous_is_zero {M C : Type}
    (domains : List (DomainSpec M C)) (emptyCfg : C) (zeroMeta newM : M)
    (fr : ConfigFileResult C) (rest : List (LoopInput M C))
    (d : DomainSpec M C) (hd : d ∈ domains)
    (hdis : d.disabled zeroMeta newM (loadConfig emptyCfg fr).2 = false)
    (hdiff : d.diff zeroMeta newM (loadConfig emptyCfg fr).2 = true) :
    (Event.dispatched zeroMeta newM
        ((runUpdate domains emptyCfg fr zeroMeta newM).2)
      ∈ (runAgent domains emptyCfg zeroMeta (⟨.ok newM, false, fr⟩ :: rest)).1)
    ∧ dispatchMgr (d.instantiate zeroMeta newM (loadConfig emptyCfg fr).2)
        ∈ (runUpdate domains emptyCfg fr zeroMeta newM).2
    ∧ MgrEvent.setCall
        ∈ dispatchMgr (d.instantiate zeroMeta newM (loadConfig emptyCfg fr).2) := by
  refine ⟨?_, ?_, ?_⟩
  · cases fr <;>
      simp [runAgent, runLoop, runStep, runUpdate, loadConfig]
  · simp only [runUpdate]
    exact List.mem_map_of_mem _ hd
  · simp [dispatchMgr, DomainSpec.instantiate, hdis, hdiff]
    cases hs : d.set zeroMeta newM (loadConfig emptyCfg fr).2 <;> simp

/-- For the claim C9 theorem: a concrete first cycle over one domain
whose diff treats the empty previous snapshot as changed. -/
theorem first_cycle_previous_is_zero_witness :
    MgrEvent.setCall ∈ dispatchMgr
      ((DomainSpec.mk (fun _ _ _ => false) (fun o n _ => decide (o ≠ n))
          (fun _ _ _ => Except.ok ())).instantiate 0 7 (0 : Nat)) :=
  (first_cycle_previous_is_zero (M := Nat) (C := Nat)
      [⟨fun _ _ _ => false, fun o n _ => decide (o ≠ n), fun _ _ _ => .ok ()⟩]
      0 0 7 .notExist []
      ⟨fun _ _ _ => false, fun o n _ => decide (o ≠ n), fun _ _ _ => .ok ()⟩
      (by simp) rfl (by simp)).2.2

/-- Running the loop on `n` consecutive fetch failures: the events are
the streak closed form, the snapshot is untouched, the counter advances
by `n`, and the loop has not stopped. -/
theorem runLoop_replicate_fail {M C : Type} (domains : List (DomainSpec M C))
    (emptyCfg : C) (e : FetchError) (n : Nat) :
    ∀ st : LoopState M,
      runLoop domains emptyCfg st (List.replicate n (failInput e)) =
        (streakEvents st.webError n e,
         ⟨st.oldMetadata, st.webError + n⟩, false) := by
  induction n with
  | zero => intro st; simp [runLoop, streakEvents]
  | succ k ih =>
      intro st
      rw [List.replicate_succ]
      have hstep : runStep domains emptyCfg st (failInput e) =
          (some ⟨st.oldMetadata, st.webError + 1⟩,
           (if st.webError == 1 then fetchFailLogs e else [])
             ++ [.sleepSeconds 5]) := rfl
      simp only [runLoop, hstep]
      rw [ih ⟨st.oldMetadata, st.webError + 1⟩]
      have harith : st.webError + 1 + k = st.webError + (k + 1) := by omega
      simp [streakEvents, harith]

/-- Once the counter has passed 1, a failure streak emits only sleeps. -/
theorem streakEvents_ge_two {M : Type} (e : FetchError) :
    ∀ (n w : Nat), 2 ≤ w →
      streakEvents (M := M) w n e = List.replicate n (.sleepSeconds 5) := by
  intro n
  induction n with
  | zero => intro w _; simp [streakEvents]
  | succ k ih =>
      intro w hw
      have hne : (w == 1) = false := by
        simp; omega
      rw [List.replicate_succ]
      simp [streakEvents, hne, ih (w + 1) (by omega)]

/-- Claim C2: feeding the loop `n` consecutive fetch failures starting
from a zero counter, the first failure logs nothing, the second emits
the diagnostic error entry (preceded by a human-actionable hint exactly
for the DNS and network-unreachable classes), later failures log
nothing further, and any successful uncancelled iteration resets the
counter to zero so the next streak restarts the pattern. -/
theorem diag_log_exactly_on_second_failure {M C : Type}
    (domains : List (DomainSpec M C)) (emptyCfg : C) (e : FetchError)
    (m newM : M) (n : Nat) (st : LoopState M) (fr : ConfigFileResult C) :
    ((runLoop domains emptyCfg ⟨m, 0⟩ (List.replicate n (failInput e))).1 =
        streakEvents 0 n e)
    ∧ ((streakEvents (M := M) 0 n e).countP isFetchErrorLog =
        if 2 ≤ n then 1 else 0)
    ∧ ((streakEvents (M := M) 0 n e).countP isHintLog =
        if 2 ≤ n then hintCount e else 0)
    ∧ (streakEvents (M := M) 0 1 e = [.sleepSeconds 5])
    ∧ (∀ k, streakEvents (M := M) 0 (k + 2) e =
        [.sleepSeconds 5] ++ fetchFailLogs e ++ [.sleepSeconds 5]
          ++ List.replicate k (.sleepSeconds 5))
    ∧ ((runStep domains emptyCfg st ⟨.ok newM, false, fr⟩).1 = some ⟨newM, 0⟩)
    ∧ (∀ s, fetchFailLogs (M := M) (.urlDNS s) =
        [.logHint dnsHint, .logFetchError (.urlDNS s)])
    ∧ (∀ s, fetchFailLogs (M := M) (.urlOp s) =
        [.logHint netHint, .logFetchError (.urlOp s)]) := by
  have hsleep : ∀ (k : Nat) (p : Event M → Bool), p (.sleepSeconds 5) = false →
      (List.replicate k (Event.sleepSeconds 5)).countP p = 0 := by
    intro k p hp
    rw [List.countP_eq_zero]
    intro a ha
    rw [List.eq_of_mem_replicate ha]
    simp [hp]
  have hclosed : ∀ k, streakEvents (M := M) 0 (k + 2) e =
      [.sleepSeconds 5] ++ fetchFailLogs e ++ [.sleepSeconds 5]
        ++ List.replicate k (.sleepSeconds 5) := by
    intro k
    show ((if (0 : Nat) == 1 then fetchFailLogs e else []) ++ [.sleepSeconds 5])
        ++ (((if (1 : Nat) == 1 then fetchFailLogs e else []) ++ [.sleepSeconds 5])
          ++ streakEvents 2 k e) = _
    rw [streakEvents_ge_two e k 2 (by omega)]
    simp
  have hfetchCount : (fetchFailLogs (M := M) e).countP isFetchErrorLog = 1 := by
    cases e <;> rfl
  have hhintCountEq : (fetchFailLogs (M := M) e).countP isHintLog = hintCount e := by
    cases e <;> rfl
  refine ⟨?_, ?_, ?_, rfl, hclosed, rfl, fun s => rfl, fun s => rfl⟩
  · rw [runLoop_replicate_fail domains emptyCfg e n ⟨m, 0⟩]
  · match n with
    | 0 => rfl
    | 1 => rfl
    | k + 2 =>
        rw [hclosed k]
        simp only [List.countP_append, hfetchCount,
          hsleep k isFetchErrorLog rfl]
        simp [List.countP_cons, isFetchErrorLog]
  · match n with
    | 0 => simp [streakEvents]
    | 1 =>
        have h1 : ¬ (2 ≤ 1) := by omega
        simp [streakEvents, h1, isHintLog]
    | k + 2 =>
        rw [hclosed k]
        simp only [List.countP_append, hhintCountEq,
          hsleep k isHintLog rfl]
        simp [List.countP_cons, isHintLog]

/-- Claim C4: with no action argument the process behaves as "run
directly in the foreground until killed" (the defaulted action `"run"`),
and an unrecognized service action is a fatal startup error. -/
theorem default_action_run_and_unknown_fatal (a : String)
    (ha : a ∉ ["run", "noservice", "install", "start", "stop", "remove"]) :
    mainGo [] = .foregroundRun
    ∧ mainGo ["GCEWindowsAgent.exe"] = .foregroundRun
    ∧ mainGo ["GCEWindowsAgent.exe", a] =
        .fatalError ("unrecognized action: " ++ a) := by
  simp only [List.mem_cons, List.not_mem_nil, or_false, not_or] at ha
  obtain ⟨h1, h2, h3, h4, h5, h6⟩ := ha
  have e1 : (a == "run") = false := beq_eq_false_iff_ne.mpr h1
  have e2 : (a == "noservice") = false := beq_eq_false_iff_ne.mpr h2
  have e3 : ("install" == a) = false := beq_eq_false_iff_ne.mpr (Ne.symm h3)
  have e4 : ("start" == a) = false := beq_eq_false_iff_ne.mpr (Ne.symm h4)
  have e5 : ("stop" == a) = false := beq_eq_false_iff_ne.mpr (Ne.symm h5)
  have e6 : ("remove" == a) = false := beq_eq_false_iff_ne.mpr (Ne.symm h6)
  refine ⟨rfl, rfl, ?_⟩
  simp [mainGo, register, containsString, serviceVerbs, e1, e2, e3, e4, e5, e6]

/-- For the claim C4 theorem: the concrete unrecognized action
`"frobnicate"` aborts with a fatal error. -/
theorem default_action_run_and_unknown_fatal_witness :
    mainGo ["GCEWindowsAgent.exe", "frobnicate"] =
      .fatalError ("unrecognized action: " ++ "frobnicate") :=
  (default_action_run_and_unknown_fatal "frobnicate" (by decide)).2.2

/-- For the claim C10 theorem: a concrete lookup that succeeds. -/
theorem containsString_iff_mem_witness :
    containsString "stop" ["install", "stop"] = true :=
  (containsString_iff_mem "stop" ["install", "stop"]).mpr (by simp)

/-- For the claim C2 theorem: a concrete one-failure streak emits only
the sleep, no diagnostic log. -/
theorem diag_log_exactly_on_second_failure_witness :
    streakEvents (M := Nat) 0 1 (.urlDNS "lookup failed") = [.sleepSeconds 5] :=
  (diag_log_exactly_on_second_failure (M := Nat) (C := Nat) [] 0
      (.urlDNS "lookup failed") 0 0 1 ⟨0, 0⟩ .notExist).2.2.2.1

/-- For the claim C5 theorem: a concrete failed fetch leaves the
snapshot in place, increments the counter and sleeps 5 seconds. -/
theorem fetch_failure_frame_witness :
    runStep (M := Nat) (C := Nat) [] 0 ⟨4, 0⟩ ⟨.error (.other "boom"), false, .notExist⟩ =
      (some ⟨4, 1⟩, [.sleepSeconds 5]) :=
  (fetch_failure_frame (M := Nat) (C := Nat) [] 0 ⟨4, 0⟩ (.other "boom")
      false .notExist []).1

/-- For the claim C6 theorem: a concrete cycle with a missing config
file dispatches with the empty config and logs nothing. -/
theorem configErrors_never_abort_cycle_witness :
    runUpdate (M := Nat) (C := Nat) [] 0 .notExist 1 2 = (none, []) :=
  (configErrors_never_abort_cycle (M := Nat) (C := Nat) [] 0 1 2).1

/-- For the claim C7 theorem: a concrete cycle's traces are exactly the
per-domain instantiations at that cycle's triple. -/
theorem domain_instances_fresh_per_cycle_witness :
    (runUpdate (M := Nat) (C := Nat) [] 0 .notExist 1 2).2 =
      ([] : List (DomainSpec Nat Nat)).map fun d =>
        dispatchMgr (d.instantiate 1 2 (loadConfig 0 ConfigFileResult.notExist).2) :=
  (domain_instances_fresh_per_cycle (M := Nat) (C := Nat) [] 0 .notExist 1 2).1

/-- For the claim C8 theorem: a concrete cancelled iteration stops after
the cancel check with no dispatch. -/
theorem cancel_checked_only_after_success_witness :
    runStep (M := Nat) (C := Nat) [] 0 ⟨4, 0⟩ ⟨.ok 9, true, .notExist⟩ =
      (none, [.checkCancel]) :=
  (cancel_checked_only_after_success (M := Nat) (C := Nat) [] 0 ⟨4, 0⟩ 9 .notExist).1

end GCEAgent
